import Mathlib

/-!
Verification of the NVCheckup remediation engine and change journal
(`internal/remediate/engine.go`, the journal in the `remediate` package, and
the Windows action registry `actions_windows.go`), shallowly embedded in Lean.

Machine state that the Go code touches is made explicit:
* command execution (`Executor.Run`) is a scripted mock: a list of
  pre-programmed `(output, error)` responses consumed by call index, with a
  log of every call made;
* the journal file is a small file-system state: a flag for the parent
  directory's existence and an optional file content, where content is either
  empty, a well-formed JSON array of entries, or malformed bytes;
* Go `error` values are an inductive capturing `fmt.Errorf` wrapping (`%w`),
  so wrapped persistence errors stay distinguishable from plain errors;
* `time.Now()` is passed in as an explicit `Nat` clock value.
-/

namespace NVCheckup

/-- Go `error` values: either a plain message (`errors.New` / `fmt.Errorf`
without `%w`) or a wrapper produced by `fmt.Errorf("prefix: %w", inner)`. -/
inductive GoErr where
  | msg (s : String)
  | wrap (pre : String) (inner : GoErr)
deriving DecidableEq, Repr

/-- Rendering of a Go error to its `Error()` string. -/
def GoErr.render : GoErr → String
  | .msg s => s
  | .wrap pre inner => pre ++ inner.render

/-- A scripted executor response: `(combined output, error)`, with the error
as `Option String` (the message), matching the mock executors in the tests. -/
abbrev ExecResp := String × Option String

/-- One recorded `Executor.Run` call: command name and arguments. -/
structure ExecCall where
  name : String
  args : List String
deriving DecidableEq, Repr

/-- Executor state: the pre-programmed script of responses (indexed by call
number) and the log of calls made so far. -/
structure ExecSt where
  script : List ExecResp
  calls : List ExecCall
deriving DecidableEq, Repr

/-- `Executor.Run`: consume the next scripted response (defaulting to
`("", no error)` past the end of the script) and record the call. -/
def ExecSt.exec (s : ExecSt) (name : String) (args : List String) :
    ExecResp × ExecSt :=
  let resp := s.script.getD s.calls.length ("", none)
  (resp, ⟨s.script, s.calls ++ [⟨name, args⟩]⟩)

/-- `types.RiskLevel`. -/
inductive RiskLevel where
  | low
  | medium
  | high
deriving DecidableEq, Repr

/-- `types.RemediationAction` (static descriptor from the registry). -/
structure RemediationAction where
  id : String
  title : String
  risk : RiskLevel
  description : String
  platform : String
  needsReboot : Bool
  needsAdmin : Bool
  category : String
  relatedFind : String
deriving DecidableEq, Repr

/-- `types.RemediationResult` (outcome of one `Apply` call).
Timestamps are modelled as `Nat` clock readings. -/
structure RemediationResult where
  actionID : String
  success : Bool
  output : String
  error : String
  undoInfo : String
  timestamp : Nat
  dryRun : Bool
deriving DecidableEq, Repr

/-- `types.ChangeJournalEntry` (persisted audit record). Go's zero
`time.Time` for a never-undone entry is modelled as `none`. -/
structure ChangeJournalEntry where
  actionID : String
  title : String
  appliedAt : Nat
  success : Bool
  output : String
  undoInfo : String
  undoneAt : Option Nat
  undoSuccess : Bool
  undoOutput : String
deriving DecidableEq, Repr

/-! ### String helpers mirroring the Go standard-library calls used -/

/-- Index of the first occurrence of `pat` in a character list
(`strings.Index`, in characters). -/
def subIdx (pat : List Char) : List Char → Option Nat
  | [] => if pat = [] then some 0 else none
  | c :: t => if pat.isPrefixOf (c :: t) then some 0 else (subIdx pat t).map (· + 1)

/-- `strings.Index s pat` (character positions; the inputs here are ASCII). -/
def strIndex (s pat : String) : Option Nat :=
  subIdx pat.data s.data

/-- `strings.HasPrefix` / `strings.TrimPrefix` support. -/
def goHasPre (s pre : String) : Bool :=
  pre.data.isPrefixOf s.data

/-- `strings.Fields`: split around runs of whitespace, no empty fields. -/
def fieldsAux : List Char → List Char → List String
  | [], acc => if acc = [] then [] else [String.mk acc.reverse]
  | c :: t, acc =>
      if c.isWhitespace then
        if acc = [] then fieldsAux t [] else String.mk acc.reverse :: fieldsAux t []
      else fieldsAux t (c :: acc)

/-- `strings.Fields`. -/
def goFields (s : String) : List String :=
  fieldsAux s.data []

/-- `strings.Split(s, "\n")`. -/
def splitNl : List Char → List Char → List String
  | [], acc => [String.mk acc.reverse]
  | c :: t, acc =>
      if c = '\n' then String.mk acc.reverse :: splitNl t []
      else splitNl t (c :: acc)

/-- `strings.Split(s, "\n")` on a string. -/
def goSplitLines (s : String) : List String :=
  splitNl s.data []

/-- `strings.TrimSpace`. -/
def goTrimSpace (s : String) : String :=
  String.mk (((s.data.dropWhile Char.isWhitespace).reverse.dropWhile Char.isWhitespace).reverse)

/-- ASCII lower-casing of one character (the case `strings.EqualFold`
exercises on the hexadecimal GUID strings compared here). -/
def asciiLower (c : Char) : Char :=
  if 65 ≤ c.toNat ∧ c.toNat ≤ 90 then Char.ofNat (c.toNat + 32) else c

/-- `strings.EqualFold` on the ASCII strings involved. -/
def goEqualFold (a b : String) : Bool :=
  a.data.map asciiLower = b.data.map asciiLower

/-! ### Windows action registry (`actions_windows.go`) -/

/-- GUID of the Windows "High performance" power plan. -/
def highPerformanceGUID : String := "8c5e7fda-e8bf-4a96-9a85-a6e23a8c635c"

/-- `parsePowerSchemeGUID`: extract the GUID following `"GUID: "` from
`powercfg /getactivescheme` output (first whitespace-delimited field after
the marker, trimmed); `""` if the marker or field is absent. -/
def parsePowerSchemeGUID (output : String) : String :=
  match strIndex output "GUID: " with
  | none => ""
  | some idx =>
      let rest := String.mk (output.data.drop (idx + 6))
      match goFields rest with
      | [] => ""
      | f :: _ => goTrimSpace f

/-- Strip a leading `"0x"` and then a leading `"0X"`, as the two successive
`strings.TrimPrefix` calls in `parseRegDwordValue` do. -/
def stripHexMarks (val : String) : String :=
  let v := if goHasPre val "0x" then String.mk (val.data.drop 2) else val
  if goHasPre v "0X" then String.mk (v.data.drop 2) else v

/-- Line scan of `parseRegDwordValue`: first trimmed line starting with
`valueName` and splitting into at least 3 fields yields its last field with
the hex marker stripped. -/
def regDwordLines (valueName : String) : List String → String
  | [] => ""
  | line :: rest =>
      let l := goTrimSpace line
      if goHasPre l valueName then
        let fields := goFields l
        if 3 ≤ fields.length then stripHexMarks (fields.getLastD "")
        else regDwordLines valueName rest
      else regDwordLines valueName rest

/-- `parseRegDwordValue`: extract a DWORD value from `reg query` output. -/
def parseRegDwordValue (output valueName : String) : String :=
  regDwordLines valueName (goSplitLines output)

/-- Result triple of one apply handler: `(output, undoInfo, err)`. -/
structure ActionOut where
  output : String
  undoInfo : String
  err : Option GoErr
deriving DecidableEq, Repr

/-- `actionSetHighPerformance`: switch the active power plan to High
performance with `powercfg`, capturing the previous plan GUID as undo info.
Short-circuits without the mutating call when already on High performance. -/
def actionSetHighPerformance (es : ExecSt) : ActionOut × ExecSt :=
  let (r1, es1) := es.exec "powercfg" ["/getactivescheme"]
  match r1.2 with
  | some m => (⟨r1.1, "", some (.wrap "failed to get current power plan: " (.msg m))⟩, es1)
  | none =>
      let previousGUID := parsePowerSchemeGUID r1.1
      if previousGUID = "" then
        (⟨r1.1, "",
          some (.msg ("could not parse current power plan GUID from output: " ++ r1.1))⟩, es1)
      else if goEqualFold previousGUID highPerformanceGUID then
        (⟨"High performance plan is already active", previousGUID, none⟩, es1)
      else
        let (r2, es2) := es1.exec "powercfg" ["/setactive", highPerformanceGUID]
        match r2.2 with
        | some m =>
            (⟨r2.1, "", some (.wrap "failed to set high performance plan: " (.msg m))⟩, es2)
        | none =>
            (⟨"Switched power plan to High performance (was: " ++ previousGUID ++ ")",
              previousGUID, none⟩, es2)

/-- Registry path used by `actionDisableHAGS`. -/
def hagsRegPath : String := "HKLM\\SYSTEM\\CurrentControlSet\\Control\\GraphicsDrivers"

/-- `actionDisableHAGS`: query `HwSchMode` (defaulting the baseline to `"2"`
on query failure or unparsable output) and then set it to 1 via `reg add`. -/
def actionDisableHAGS (es : ExecSt) : ActionOut × ExecSt :=
  let (r1, es1) := es.exec "reg" ["query", hagsRegPath, "/v", "HwSchMode"]
  let currentVal :=
    match r1.2 with
    | none =>
        let parsed := parseRegDwordValue r1.1 "HwSchMode"
        if parsed ≠ "" then parsed else "2"
    | some _ => "2"
  let (r2, es2) := es1.exec "reg"
      ["add", hagsRegPath, "/v", "HwSchMode", "/t", "REG_DWORD", "/d", "1", "/f"]
  match r2.2 with
  | some m => (⟨r2.1, "", some (.wrap "failed to set HwSchMode to 1: " (.msg m))⟩, es2)
  | none =>
      (⟨"Set " ++ hagsRegPath ++ "\\HwSchMode to 1 (HAGS disabled). Reboot required.",
        currentVal, none⟩, es2)

/-- Registry path used by `actionDisableGameMode`. -/
def gameModeRegPath : String := "HKCU\\Software\\Microsoft\\GameBar"

/-- `actionDisableGameMode`: query `AutoGameModeEnabled` (baseline defaults
to `"1"`) and then set it to 0 via `reg add`. -/
def actionDisableGameMode (es : ExecSt) : ActionOut × ExecSt :=
  let (r1, es1) := es.exec "reg" ["query", gameModeRegPath, "/v", "AutoGameModeEnabled"]
  let currentVal :=
    match r1.2 with
    | none =>
        let parsed := parseRegDwordValue r1.1 "AutoGameModeEnabled"
        if parsed ≠ "" then parsed else "1"
    | some _ => "1"
  let (r2, es2) := es1.exec "reg"
      ["add", gameModeRegPath, "/v", "AutoGameModeEnabled", "/t", "REG_DWORD", "/d", "0", "/f"]
  match r2.2 with
  | some m =>
      (⟨r2.1, "", some (.wrap "failed to set AutoGameModeEnabled to 0: " (.msg m))⟩, es2)
  | none =>
      (⟨"Set " ++ gameModeRegPath ++ "\\AutoGameModeEnabled to 0 (Game Mode disabled).",
        currentVal, none⟩, es2)

/-- `applyAction`: dispatch by action ID; unknown IDs fail with an explicit
configuration error and no executor call. -/
def applyAction (id : String) (es : ExecSt) : ActionOut × ExecSt :=
  if id = "set-high-performance" then actionSetHighPerformance es
  else if id = "disable-hags" then actionDisableHAGS es
  else if id = "disable-game-mode" then actionDisableGameMode es
  else (⟨"", "", some (.msg ("unknown remediation action: \"" ++ id ++ "\""))⟩, es)

/-- `undoAction`: reissue the mutating command with the stored baseline as
the new target; unknown IDs fail with an explicit error and no executor call. -/
def undoAction (id undoInfo : String) (es : ExecSt) : Option String × ExecSt :=
  if id = "set-high-performance" then
    let (r, es1) := es.exec "powercfg" ["/setactive", undoInfo]
    (r.2, es1)
  else if id = "disable-hags" then
    let (r, es1) := es.exec "reg"
        ["add", hagsRegPath, "/v", "HwSchMode", "/t", "REG_DWORD", "/d", undoInfo, "/f"]
    (r.2, es1)
  else if id = "disable-game-mode" then
    let (r, es1) := es.exec "reg"
        ["add", gameModeRegPath, "/v", "AutoGameModeEnabled", "/t", "REG_DWORD", "/d",
          undoInfo, "/f"]
    (r.2, es1)
  else (some ("unknown action for undo: \"" ++ id ++ "\""), es)

/-- Catalog descriptor of `set-high-performance`. -/
def setHighPerformanceAction : RemediationAction :=
  { id := "set-high-performance",
    title := "Switch to High Performance power plan",
    description := "Sets the Windows power plan to 'High performance' using powercfg. This prevents CPU throttling and ensures maximum GPU performance.",
    risk := .low,
    needsAdmin := true,
    needsReboot := false,
    platform := "windows",
    category := "power",
    relatedFind := "Power plan is not set to High performance" }

/-- Catalog descriptor of `disable-hags`. -/
def disableHAGSAction : RemediationAction :=
  { id := "disable-hags",
    title := "Disable Hardware-Accelerated GPU Scheduling (HAGS)",
    description := "Sets the HwSchMode registry value to 1 to disable HAGS. Some games and applications experience stuttering or instability with HAGS enabled.",
    risk := .medium,
    needsAdmin := true,
    needsReboot := true,
    platform := "windows",
    category := "registry",
    relatedFind := "HAGS is enabled" }

/-- Catalog descriptor of `disable-game-mode`. -/
def disableGameModeAction : RemediationAction :=
  { id := "disable-game-mode",
    title := "Disable Windows Game Mode",
    description := "Sets the AutoGameModeEnabled registry value to 0 to disable Game Mode. Game Mode can cause frame pacing issues in some titles.",
    risk := .low,
    needsAdmin := false,
    needsReboot := false,
    platform := "windows",
    category := "registry",
    relatedFind := "Game Mode is enabled" }

/-- `getAvailableActions` for Windows: the static three-action catalog. -/
def getAvailableActions : List RemediationAction :=
  [setHighPerformanceAction, disableHAGSAction, disableGameModeAction]

/-! ### Journal (JSON file persistence) -/

/-- Content of the journal file when it exists: a zero-byte file, a
well-formed JSON array of entries, or malformed bytes. -/
inductive JContent where
  | empty
  | good (entries : List ChangeJournalEntry)
  | bad (raw : String)
deriving DecidableEq, Repr

/-- File-system state relevant to the journal: whether the journal's parent
directory exists, and the journal file's content (`none` = file absent). -/
structure FS where
  dirExists : Bool
  file : Option JContent
deriving DecidableEq, Repr

/-- `Journal.Read`: a missing or zero-byte file is an empty list with no
error; malformed JSON is a wrapped parse error. -/
def journalRead (fs : FS) : Except GoErr (List ChangeJournalEntry) :=
  match fs.file with
  | none => .ok []
  | some .empty => .ok []
  | some (.good l) => .ok l
  | some (.bad raw) => .error (.wrap "failed to parse journal file: " (.msg raw))

/-- `Journal.Write`: create the parent directory if absent and rewrite the
whole file with the indented JSON serialization of `entries`. Serialization
of well-formed entries and the OS write are modelled as succeeding. -/
def journalWrite (fs : FS) (entries : List ChangeJournalEntry) : FS × Option GoErr :=
  let _ := fs
  ({ dirExists := true, file := some (.good entries) }, none)

/-- `Journal.Append`: read the current entries (a missing file reads as
empty), append the new entry, and rewrite the file; a read failure aborts
with a wrapped error and leaves the file untouched. -/
def journalAppend (fs : FS) (entry : ChangeJournalEntry) : FS × Option GoErr :=
  match journalRead fs with
  | .error e => (fs, some (.wrap "failed to read existing journal: " e))
  | .ok entries => journalWrite fs (entries ++ [entry])

/-! ### Engine (`engine.go`) -/

/-- The `RemediationResult` a live `Apply` builds from the dispatcher's
`(output, undoInfo, err)` triple: on error, `Success=false` with the error
text recorded; on success, `Success=true` with the captured undo info. -/
def buildApplyResult (a : RemediationAction) (now : Nat) (ao : ActionOut) :
    RemediationResult :=
  match ao.err with
  | some e =>
      { actionID := a.id, success := false, output := ao.output, error := e.render,
        undoInfo := "", timestamp := now, dryRun := false }
  | none =>
      { actionID := a.id, success := true, output := ao.output, error := "",
        undoInfo := ao.undoInfo, timestamp := now, dryRun := false }

/-- The `ChangeJournalEntry` a live `Apply` records for its result. -/
def mkJournalEntry (a : RemediationAction) (now : Nat) (r : RemediationResult) :
    ChangeJournalEntry :=
  { actionID := a.id, title := a.title, appliedAt := now, success := r.success,
    output := r.output, undoInfo := r.undoInfo,
    undoneAt := none, undoSuccess := false, undoOutput := "" }

/-- `Engine.Apply`. In dry-run mode, no executor call and no journal entry.
In live mode, dispatch through `applyAction`, then always append a journal
entry; a journal failure still returns the result, together with a wrapping
error. Returns `(result, error, executor state, file-system state)`. -/
def engineApply (dryRun : Bool) (a : RemediationAction) (now : Nat)
    (es : ExecSt) (fs : FS) : RemediationResult × Option GoErr × ExecSt × FS :=
  if dryRun then
    ({ actionID := a.id, success := true,
       output := "[DRY RUN] Would apply: " ++ a.title, error := "",
       undoInfo := "", timestamp := now, dryRun := true }, none, es, fs)
  else
    let (ao, es1) := applyAction a.id es
    let result := buildApplyResult a now ao
    let entry := mkJournalEntry a now result
    match journalAppend fs entry with
    | (fs1, some je) =>
        (result, some (.wrap "action applied but journal write failed: " je), es1, fs1)
    | (fs1, none) => (result, none, es1, fs1)

/-- The `UndoOutput` text recorded for an undo dispatch outcome. -/
def undoOutputOf : Option String → String
  | some m => m
  | none => "successfully undone"

/-- The journal-update loop of `Engine.Undo`: find the first entry matching
the given `(ActionID, AppliedAt)` pair exactly, set its undo fields from the
dispatch outcome, and stop (the `break`); all other entries are untouched. -/
def updateEntries (aid : String) (ts : Nat) (now : Nat) (undoErr : Option String) :
    List ChangeJournalEntry → List ChangeJournalEntry
  | [] => []
  | e :: rest =>
      if e.actionID = aid ∧ e.appliedAt = ts then
        { e with
          undoneAt := some now
          undoSuccess := undoErr.isNone
          undoOutput := undoOutputOf undoErr } :: rest
      else e :: updateEntries aid ts now undoErr rest

/-- `Engine.Undo`. Precondition checks (undo info present, original action
succeeded) come before everything; dry-run is a pure no-op; live mode
dispatches `undoAction` and then, regardless of its outcome, re-reads the
journal, updates the exactly-matching entry and rewrites the file. Returns
`(error, executor state, file-system state)`. -/
def engineUndo (dryRun : Bool) (entry : ChangeJournalEntry) (now : Nat)
    (es : ExecSt) (fs : FS) : Option GoErr × ExecSt × FS :=
  if entry.undoInfo = "" then
    (some (.msg ("no undo information available for action \"" ++ entry.actionID ++ "\"")),
      es, fs)
  else if !entry.success then
    (some (.msg ("cannot undo action \"" ++ entry.actionID ++
      "\": original action did not succeed")), es, fs)
  else if dryRun then (none, es, fs)
  else
    let (undoErr, es1) := undoAction entry.actionID entry.undoInfo es
    match journalRead fs with
    | .error re => (some (.wrap "undo executed but failed to update journal: " re), es1, fs)
    | .ok entries =>
        let entries1 := updateEntries entry.actionID entry.appliedAt now undoErr entries
        match journalWrite fs entries1 with
        | (fs1, some we) =>
            (some (.wrap "undo executed but failed to update journal: " we), es1, fs1)
        | (fs1, none) => (undoErr.map .msg, es1, fs1)

/-! ### Derived notions used by the verification statements -/

/-- The creation-time fields of a journal entry: everything except the
undo-related fields `undoneAt`, `undoSuccess`, `undoOutput`. -/
def coreFields (e : ChangeJournalEntry) :
    String × String × Nat × Bool × String × String :=
  (e.actionID, e.title, e.appliedAt, e.success, e.output, e.undoInfo)

/-- The entries a file-system state holds (empty when the file is absent,
zero-byte, or malformed). -/
def fsEntriesD (fs : FS) : List ChangeJournalEntry :=
  match fs.file with
  | some (.good l) => l
  | _ => []

/-! ### Helper lemmas -/

/-- The undo-update loop never changes any creation-time field of any entry
(in particular it deletes nothing and reorders nothing). -/
theorem updateEntries_coreFields (aid : String) (ts now : Nat)
    (err : Option String) (l : List ChangeJournalEntry) :
    (updateEntries aid ts now err l).map coreFields = l.map coreFields := by
  induction l with
  | nil => rfl
  | cons e rest ih =>
      by_cases h : e.actionID = aid ∧ e.appliedAt = ts
      · simp [updateEntries, h, coreFields]
      · simp [updateEntries, h, ih]

/-- The undo-update loop rewrites exactly the first entry whose
`(ActionID, AppliedAt)` pair matches, leaving every other entry untouched. -/
theorem updateEntries_split (aid : String) (ts now : Nat) (err : Option String)
    (l1 l2 : List ChangeJournalEntry) (m : ChangeJournalEntry)
    (hm : m.actionID = aid ∧ m.appliedAt = ts)
    (hl : ∀ x ∈ l1, ¬(x.actionID = aid ∧ x.appliedAt = ts)) :
    updateEntries aid ts now err (l1 ++ m :: l2) =
      l1 ++ ({ m with
        undoneAt := some now
        undoSuccess := err.isNone
        undoOutput := undoOutputOf err } :: l2) := by
  induction l1 with
  | nil => simp [updateEntries, hm]
  | cons x rest ih =>
      have hx : ¬(x.actionID = aid ∧ x.appliedAt = ts) := hl x (by simp)
      have ih1 := ih (fun y hy => hl y (by simp [hy]))
      simp only [List.cons_append, updateEntries, hx, if_false, List.append_eq, ih1]

/-! ### Claim theorems -/

/-- C5: for every action, `Apply` in dry-run mode makes zero Executor calls,
writes zero journal entries, and returns a result with `Success=true`,
`Output="[DRY RUN] Would apply: <title>"`, `UndoInfo=""` and `DryRun=true`,
with a nil error. (Executor and file-system states are returned unchanged.) -/
theorem apply_dry_run_pure (a : RemediationAction) (now : Nat)
    (es : ExecSt) (fs : FS) :
    engineApply true a now es fs =
      ({ actionID := a.id, success := true,
         output := "[DRY RUN] Would apply: " ++ a.title, error := "",
         undoInfo := "", timestamp := now, dryRun := true }, none, es, fs) := by
  rfl

/-- C10: `Undo` on an entry with empty `UndoInfo` returns the
"no undo information available" error for every success flag and every
engine mode (in particular `Success=false` and dry-run), with no Executor
call and no journal access: the `UndoInfo` precondition is checked first. -/
theorem undo_info_checked_first (d : Bool) (e : ChangeJournalEntry)
    (now : Nat) (es : ExecSt) (fs : FS) (h : e.undoInfo = "") :
    engineUndo d e now es fs =
      (some (.msg ("no undo information available for action \"" ++
        e.actionID ++ "\"")), es, fs) := by
  simp [engineUndo, h]

/-- Witness for `undo_info_checked_first`: an entry with `UndoInfo=""` and
`Success=false` under a dry-run engine still gets the undo-info error with
states untouched. -/
theorem undo_info_checked_first_witness :
    engineUndo true ⟨"a", "t", 1, false, "o", "", none, false, ""⟩ 9
        ⟨[("z", none)], []⟩ ⟨true, none⟩ =
      (some (.msg "no undo information available for action \"a\""),
        ⟨[("z", none)], []⟩, ⟨true, none⟩) := by
  have h := undo_info_checked_first true
    ⟨"a", "t", 1, false, "o", "", none, false, ""⟩ 9
    ⟨[("z", none)], []⟩ ⟨true, none⟩ rfl
  simpa using h

/-- C4: `Undo` on an entry with empty `UndoInfo` or `Success=false` returns
an error before any execution: the Executor state and the file-system state
are returned exactly as given (zero Executor calls, no journal read, write
or mutation). -/
theorem undo_preconditions_reject (d : Bool) (e : ChangeJournalEntry)
    (now : Nat) (es : ExecSt) (fs : FS)
    (h : e.undoInfo = "" ∨ e.success = false) :
    ∃ s, engineUndo d e now es fs = (some (.msg s), es, fs) := by
  rcases h with h | h
  · exact ⟨"no undo information available for action \"" ++ e.actionID ++ "\"",
      by simp [engineUndo, h]⟩
  · by_cases h0 : e.undoInfo = ""
    · exact ⟨"no undo information available for action \"" ++ e.actionID ++ "\"",
        by simp [engineUndo, h0]⟩
    · exact ⟨"cannot undo action \"" ++ e.actionID ++ "\": original action did not succeed",
        by simp [engineUndo, h0, h]⟩

/-- Witness for `undo_preconditions_reject`: both rejection cases at
concrete entries, each with states untouched. -/
theorem undo_preconditions_reject_witness :
    (∃ s, engineUndo false ⟨"a", "t", 1, true, "o", "", none, false, ""⟩ 9
        ⟨[("z", none)], []⟩ ⟨true, none⟩ =
      (some (.msg s), ⟨[("z", none)], []⟩, ⟨true, none⟩)) ∧
    (∃ s, engineUndo false ⟨"a", "t", 1, false, "o", "2", none, false, ""⟩ 9
        ⟨[("z", none)], []⟩ ⟨true, none⟩ =
      (some (.msg s), ⟨[("z", none)], []⟩, ⟨true, none⟩)) :=
  ⟨undo_preconditions_reject false ⟨"a", "t", 1, true, "o", "", none, false, ""⟩
      9 ⟨[("z", none)], []⟩ ⟨true, none⟩ (Or.inl rfl),
    undo_preconditions_reject false ⟨"a", "t", 1, false, "o", "2", none, false, ""⟩
      9 ⟨[("z", none)], []⟩ ⟨true, none⟩ (Or.inr rfl)⟩

/-- C8: `Journal.Read` on a missing file and on a zero-byte file returns an
empty entry list with nil error; malformed JSON yields a (wrapped) parse
error; and `Journal.Append` with a missing parent directory creates the
directory and succeeds. -/
theorem journal_read_append_edge_cases :
    (∀ d : Bool, journalRead ⟨d, none⟩ = .ok []) ∧
    (∀ d : Bool, journalRead ⟨d, some .empty⟩ = .ok []) ∧
    (∀ (d : Bool) (raw : String), journalRead ⟨d, some (.bad raw)⟩ =
      .error (.wrap "failed to parse journal file: " (.msg raw))) ∧
    (∀ entry : ChangeJournalEntry, journalAppend ⟨false, none⟩ entry =
      (⟨true, some (.good [entry])⟩, none)) :=
  ⟨fun _ => rfl, fun _ => rfl, fun _ _ => rfl, fun _ => rfl⟩

/-- C1: a live-mode `Apply` always appends a `ChangeJournalEntry` to the
journal — whether the dispatched action succeeded or failed (the result and
entry are built by `buildApplyResult`/`mkJournalEntry` from the dispatch
outcome, which is arbitrary here) — and when the journal append itself
fails, `Apply` still returns the same `RemediationResult` together with a
wrapping error whose shape (`"action applied but journal write failed: "`
wrapper) is distinguishable from an action-execution error. -/
theorem apply_live_always_journals (a : RemediationAction) (now : Nat)
    (es : ExecSt) (fs : FS) :
    (∀ l, journalRead fs = .ok l →
      engineApply false a now es fs =
        (buildApplyResult a now (applyAction a.id es).1, none,
          (applyAction a.id es).2,
          ⟨true, some (.good (l ++
            [mkJournalEntry a now (buildApplyResult a now (applyAction a.id es).1)]))⟩)) ∧
    (∀ err, journalRead fs = .error err →
      engineApply false a now es fs =
        (buildApplyResult a now (applyAction a.id es).1,
          some (.wrap "action applied but journal write failed: "
            (.wrap "failed to read existing journal: " err)),
          (applyAction a.id es).2, fs)) := by
  constructor
  · intro l hl
    simp [engineApply, journalAppend, hl, journalWrite]
  · intro err herr
    simp [engineApply, journalAppend, herr]

/-- Witness for `apply_live_always_journals`: a readable (absent-file)
journal gets the entry of a failed dispatch appended with nil error, and a
malformed journal yields the distinguishable wrapped error with the same
result returned. -/
theorem apply_live_always_journals_witness :
    engineApply false setHighPerformanceAction 3 ⟨[("2", none), ("", none)], []⟩
        ⟨true, none⟩ =
      (buildApplyResult setHighPerformanceAction 3
          (applyAction "set-high-performance" ⟨[("2", none), ("", none)], []⟩).1,
        none,
        (applyAction "set-high-performance" ⟨[("2", none), ("", none)], []⟩).2,
        ⟨true, some (.good [mkJournalEntry setHighPerformanceAction 3
          (buildApplyResult setHighPerformanceAction 3
            (applyAction "set-high-performance" ⟨[("2", none), ("", none)], []⟩).1)])⟩) ∧
    engineApply false setHighPerformanceAction 3 ⟨[("2", none), ("", none)], []⟩
        ⟨true, some (.bad "oops")⟩ =
      (buildApplyResult setHighPerformanceAction 3
          (applyAction "set-high-performance" ⟨[("2", none), ("", none)], []⟩).1,
        some (.wrap "action applied but journal write failed: "
          (.wrap "failed to read existing journal: "
            (.wrap "failed to parse journal file: " (.msg "oops")))),
        (applyAction "set-high-performance" ⟨[("2", none), ("", none)], []⟩).2,
        ⟨true, some (.bad "oops")⟩) :=
  ⟨(apply_live_always_journals setHighPerformanceAction 3
      ⟨[("2", none), ("", none)], []⟩ ⟨true, none⟩).1 [] rfl,
    (apply_live_always_journals setHighPerformanceAction 3
      ⟨[("2", none), ("", none)], []⟩ ⟨true, some (.bad "oops")⟩).2
      (.wrap "failed to parse journal file: " (.msg "oops")) rfl⟩

/-- C3: a live-mode `Undo` whose entry passes both preconditions dispatches
the undo command and then, regardless of its outcome, re-reads the journal
and rewrites it with exactly the first entry whose `(ActionID, AppliedAt)`
pair equals the given entry's (exact timestamp equality) updated: its
`UndoneAt` set, `UndoSuccess` set to whether the command succeeded, and
`UndoOutput` set to `"successfully undone"` on success or the command's
error text on failure; the return value is the undo command's error, while
a journal read failure is returned as a distinct wrapped error. -/
theorem undo_live_exact_match (e : ChangeJournalEntry) (now : Nat)
    (es : ExecSt) (l1 l2 : List ChangeJournalEntry) (m : ChangeJournalEntry)
    (h1 : e.undoInfo ≠ "") (h2 : e.success = true)
    (hm : m.actionID = e.actionID ∧ m.appliedAt = e.appliedAt)
    (hl : ∀ x ∈ l1, ¬(x.actionID = e.actionID ∧ x.appliedAt = e.appliedAt)) :
    engineUndo false e now es ⟨true, some (.good (l1 ++ m :: l2))⟩ =
      ((undoAction e.actionID e.undoInfo es).1.map .msg,
        (undoAction e.actionID e.undoInfo es).2,
        ⟨true, some (.good (l1 ++ ({ m with
          undoneAt := some now
          undoSuccess := (undoAction e.actionID e.undoInfo es).1.isNone
          undoOutput := undoOutputOf (undoAction e.actionID e.undoInfo es).1 }
            :: l2)))⟩) ∧
    (∀ raw, engineUndo false e now es ⟨true, some (.bad raw)⟩ =
      (some (.wrap "undo executed but failed to update journal: "
          (.wrap "failed to parse journal file: " (.msg raw))),
        (undoAction e.actionID e.undoInfo es).2, ⟨true, some (.bad raw)⟩)) := by
  constructor
  · simp [engineUndo, h1, h2, journalRead, journalWrite,
      updateEntries_split e.actionID e.appliedAt now _ l1 l2 m hm hl]
  · intro raw
    simp [engineUndo, h1, h2, journalRead]

/-- Witness for `undo_live_exact_match`: two journal entries share
`ActionID="set-high-performance"` but differ in `AppliedAt` (0 vs 1);
undoing the `AppliedAt=1` entry (with a successful scripted undo command)
updates only that entry, setting `UndoSuccess=true` and
`UndoOutput="successfully undone"`; on a malformed journal the wrapped
update error is returned instead. -/
theorem undo_live_exact_match_witness :
    (engineUndo false ⟨"set-high-performance", "t", 1, true, "o", "2", none, false, ""⟩ 9
        ⟨[("", none)], []⟩
        ⟨true, some (.good [⟨"set-high-performance", "t", 0, true, "o", "2", none, false, ""⟩,
          ⟨"set-high-performance", "t", 1, true, "o", "2", none, false, ""⟩])⟩ =
      (none, ⟨[("", none)], [⟨"powercfg", ["/setactive", "2"]⟩]⟩,
        ⟨true, some (.good [⟨"set-high-performance", "t", 0, true, "o", "2", none, false, ""⟩,
          ⟨"set-high-performance", "t", 1, true, "o", "2", some 9, true, "successfully undone"⟩])⟩)) ∧
    (engineUndo false ⟨"set-high-performance", "t", 1, true, "o", "2", none, false, ""⟩ 9
        ⟨[("", none)], []⟩ ⟨true, some (.bad "junk")⟩ =
      (some (.wrap "undo executed but failed to update journal: "
          (.wrap "failed to parse journal file: " (.msg "junk"))),
        ⟨[("", none)], [⟨"powercfg", ["/setactive", "2"]⟩]⟩,
        ⟨true, some (.bad "junk")⟩)) := by
  have h := undo_live_exact_match
    ⟨"set-high-performance", "t", 1, true, "o", "2", none, false, ""⟩
    9 ⟨[("", none)], []⟩
    [⟨"set-high-performance", "t", 0, true, "o", "2", none, false, ""⟩] []
    ⟨"set-high-performance", "t", 1, true, "o", "2", none, false, ""⟩
    (by decide) rfl (by exact ⟨rfl, rfl⟩) (by decide)
  constructor
  · have h0 := h.1
    simpa [undoAction, ExecSt.exec, undoOutputOf] using h0
  · have h0 := h.2 "junk"
    simpa [undoAction, ExecSt.exec] using h0

/-- C7: an action ID outside the platform catalog is rejected by both
`applyAction` and `undoAction` with an explicit "unknown action" error and
no Executor call (the executor state is returned unchanged). -/
theorem unknown_action_rejected (id uinfo : String) (es : ExecSt)
    (h : id ∉ getAvailableActions.map RemediationAction.id) :
    applyAction id es =
      (⟨"", "", some (.msg ("unknown remediation action: \"" ++ id ++ "\""))⟩, es) ∧
    undoAction id uinfo es =
      (some ("unknown action for undo: \"" ++ id ++ "\""), es) := by
  have hn : id ≠ "set-high-performance" ∧ id ≠ "disable-hags" ∧
      id ≠ "disable-game-mode" := by
    refine ⟨?_, ?_, ?_⟩ <;> intro hh <;> exact h (by
      simp [getAvailableActions, setHighPerformanceAction, disableHAGSAction,
        disableGameModeAction, hh])
  exact ⟨by simp [applyAction, hn.1, hn.2.1, hn.2.2],
    by simp [undoAction, hn.1, hn.2.1, hn.2.2]⟩

/-- Witness for `unknown_action_rejected`: the ID `"no-such-action"` is not
in the catalog and both dispatchers reject it without touching the
executor. -/
theorem unknown_action_rejected_witness :
    applyAction "no-such-action" ⟨[("z", none)], []⟩ =
      (⟨"", "", some (.msg "unknown remediation action: \"no-such-action\"")⟩,
        ⟨[("z", none)], []⟩) ∧
    undoAction "no-such-action" "2" ⟨[("z", none)], []⟩ =
      (some "unknown action for undo: \"no-such-action\"", ⟨[("z", none)], []⟩) := by
  have h := unknown_action_rejected "no-such-action" "2" ⟨[("z", none)], []⟩
    (by decide)
  simpa using h

/-- C2 counterexample: a FAILED undo dispatch also mutates the persisted
entry's undo fields. The entry `{ActionID:"disable-hags", AppliedAt:5,
Success:true, UndoInfo:"2"}` is undone with a scripted executor whose
`reg add` fails; `Undo` returns the dispatch error, yet the journal entry's
`UndoneAt`/`UndoSuccess`/`UndoOutput` are mutated (`UndoSuccess=false`),
refuting "mutated ... only by a successful Undo dispatch". -/
theorem undo_failure_still_mutates_entry :
    engineUndo false ⟨"disable-hags", "T", 5, true, "o", "2", none, false, ""⟩ 7
        ⟨[("boom", some "exec failed")], []⟩
        ⟨true, some (.good [⟨"disable-hags", "T", 5, true, "o", "2", none, false, ""⟩])⟩ =
      (some (.msg "exec failed"),
        ⟨[("boom", some "exec failed")],
          [⟨"reg", ["add", hagsRegPath, "/v", "HwSchMode", "/t", "REG_DWORD",
            "/d", "2", "/f"]⟩]⟩,
        ⟨true, some (.good
          [⟨"disable-hags", "T", 5, true, "o", "2", some 7, false, "exec failed"⟩])⟩) := by
  rfl

/-- C2 as amended: the undo-related fields are the only fields of a
persisted entry ever mutated after creation, they are mutated only by an
`Undo` dispatch — successful or failed, and possibly repeatedly — and no
operation deletes or reorders entries: `Apply` only ever appends to the
existing entries, and `Undo` preserves every entry's creation-time fields,
order and count. -/
theorem journal_entries_append_only (d : Bool) (a : RemediationAction)
    (e : ChangeJournalEntry) (now : Nat) (es : ExecSt) (fs : FS) :
    (∃ s, fsEntriesD (engineApply d a now es fs).2.2.2 = fsEntriesD fs ++ s) ∧
    (fsEntriesD (engineUndo d e now es fs).2.2).map coreFields =
      (fsEntriesD fs).map coreFields := by
  constructor
  · by_cases hd : d
    · subst hd
      exact ⟨[], by simp [engineApply]⟩
    · have hd' : d = false := by simpa using hd
      subst hd'
      match hfile : fs.file with
      | none =>
          refine ⟨[mkJournalEntry a now (buildApplyResult a now (applyAction a.id es).1)], ?_⟩
          simp [engineApply, journalAppend, journalRead, hfile, journalWrite, fsEntriesD]
      | some .empty =>
          refine ⟨[mkJournalEntry a now (buildApplyResult a now (applyAction a.id es).1)], ?_⟩
          simp [engineApply, journalAppend, journalRead, hfile, journalWrite, fsEntriesD]
      | some (.good l) =>
          refine ⟨[mkJournalEntry a now (buildApplyResult a now (applyAction a.id es).1)], ?_⟩
          simp [engineApply, journalAppend, journalRead, hfile, journalWrite, fsEntriesD]
      | some (.bad raw) =>
          refine ⟨[], ?_⟩
          simp [engineApply, journalAppend, journalRead, hfile, fsEntriesD]
  · by_cases h0 : e.undoInfo = ""
    · simp [engineUndo, h0]
    · by_cases h1 : e.success
      · by_cases hd : d
        · subst hd
          simp [engineUndo, h0, h1]
        · have hd' : d = false := by simpa using hd
          subst hd'
          match hfile : fs.file with
          | none =>
              simp [engineUndo, h0, h1, journalRead, hfile, journalWrite, fsEntriesD,
                updateEntries]
          | some .empty =>
              simp [engineUndo, h0, h1, journalRead, hfile, journalWrite, fsEntriesD,
                updateEntries]
          | some (.good l) =>
              simp [engineUndo, h0, h1, journalRead, hfile, journalWrite, fsEntriesD,
                updateEntries_coreFields]
          | some (.bad raw) =>
              simp [engineUndo, h0, h1, journalRead, hfile, fsEntriesD]
      · have h1' : e.success = false := by simpa using h1
        simp [engineUndo, h0, h1']

/-- C6 counterexample: `actionDisableHAGS` has no idempotent short-circuit.
With `reg query` reporting `HwSchMode` already `0x1` (the desired target
state), the handler still issues the mutating `reg add` as a second
Executor call and reports the mutation message, not a no-op message. -/
theorem hags_applies_even_when_already_disabled :
    parseRegDwordValue "    HwSchMode    REG_DWORD    0x1" "HwSchMode" = "1" ∧
    actionDisableHAGS
        ⟨[("    HwSchMode    REG_DWORD    0x1", none), ("", none)], []⟩ =
      (⟨"Set " ++ hagsRegPath ++ "\\HwSchMode to 1 (HAGS disabled). Reboot required.",
          "1", none⟩,
        ⟨[("    HwSchMode    REG_DWORD    0x1", none), ("", none)],
          [⟨"reg", ["query", hagsRegPath, "/v", "HwSchMode"]⟩,
           ⟨"reg", ["add", hagsRegPath, "/v", "HwSchMode", "/t", "REG_DWORD",
             "/d", "1", "/f"]⟩]⟩) := by
  exact ⟨rfl, rfl⟩

/-- C6 as amended: only `actionSetHighPerformance` implements the idempotent
short-circuit. When the queried active plan GUID already equals the
high-performance GUID (up to case folding), it returns success immediately
with the no-op message and the queried baseline as undo info, issuing only
the single read-only query and no mutating Executor call. (The two
registry handlers always issue the mutating `reg add`, which is still safe
to repeat since it writes a fixed value.) -/
theorem set_high_performance_idempotent (es : ExecSt) (out g : String)
    (hresp : es.script.getD es.calls.length ("", none) = (out, none))
    (hg : parsePowerSchemeGUID out = g) (hne : g ≠ "")
    (hfold : goEqualFold g highPerformanceGUID = true) :
    actionSetHighPerformance es =
      (⟨"High performance plan is already active", g, none⟩,
        ⟨es.script, es.calls ++ [⟨"powercfg", ["/getactivescheme"]⟩]⟩) := by
  have hresp' : (es.script[es.calls.length]?).getD ("", none) = (out, none) := by
    simpa [List.getD] using hresp
  simp [actionSetHighPerformance, ExecSt.exec, List.getD, hresp', hg, hne, hfold]

/-- Witness for `set_high_performance_idempotent`: `powercfg` reports the
high-performance GUID in upper case (exercising the case-insensitive
comparison); the handler stops after the single query call. -/
theorem set_high_performance_idempotent_witness :
    actionSetHighPerformance
        ⟨[("Power Scheme GUID: 8C5E7FDA-E8BF-4A96-9A85-A6E23A8C635C  (High performance)",
          none)], []⟩ =
      (⟨"High performance plan is already active",
          "8C5E7FDA-E8BF-4A96-9A85-A6E23A8C635C", none⟩,
        ⟨[("Power Scheme GUID: 8C5E7FDA-E8BF-4A96-9A85-A6E23A8C635C  (High performance)",
          none)], [⟨"powercfg", ["/getactivescheme"]⟩]⟩) := by
  have h := set_high_performance_idempotent
    ⟨[("Power Scheme GUID: 8C5E7FDA-E8BF-4A96-9A85-A6E23A8C635C  (High performance)",
      none)], []⟩
    "Power Scheme GUID: 8C5E7FDA-E8BF-4A96-9A85-A6E23A8C635C  (High performance)"
    "8C5E7FDA-E8BF-4A96-9A85-A6E23A8C635C" rfl (by decide) (by decide) (by decide)
  simpa using h

/-- C9 counterexample: Scenario B does not hold for every catalog action.
For `set-high-performance`, a mock executor answering `("2", nil)` to the
query makes the GUID parse fail, so live `Apply` returns `Success=false`
(and for `disable-game-mode` the same script yields `UndoInfo="1"`). -/
theorem scenario_b_fails_for_catalog :
    setHighPerformanceAction ∈ getAvailableActions ∧
    (engineApply false setHighPerformanceAction 0
        ⟨[("2", none), ("", none)], []⟩ ⟨true, none⟩).1.success = false ∧
    disableGameModeAction ∈ getAvailableActions ∧
    (engineApply false disableGameModeAction 0
        ⟨[("2", none), ("", none)], []⟩ ⟨true, none⟩).1.undoInfo = "1" := by
  refine ⟨by simp [getAvailableActions], rfl, by simp [getAvailableActions], rfl⟩

/-- C9 as amended: Scenario B holds for the catalog action `disable-hags`:
live `Apply` with a mock Executor answering `("2", nil)` to the first
(query) call and `("", nil)` to the second (set) call returns
`Success=true` and `UndoInfo="2"`. -/
theorem scenario_b_disable_hags :
    (engineApply false disableHAGSAction 0
        ⟨[("2", none), ("", none)], []⟩ ⟨true, none⟩).1.success = true ∧
    (engineApply false disableHAGSAction 0
        ⟨[("2", none), ("", none)], []⟩ ⟨true, none⟩).1.undoInfo = "2" := by
  exact ⟨rfl, rfl⟩
